import Mathlib

/-!
Verification of the relay engine of `rpi_gateway.py` (Raspberry Pi Mesh
Gateway).  The Python source is shallowly embedded: JSON values become the
inductive type `JVal`, Python dicts become association lists with unique keys,
and every effectful method (`send_to_backend`, `process_message`,
`poll_commands`, `send_command_to_mesh`) becomes a pure state-transition
function over `GState` taking the external transports (HTTP responses, serial
link status) as explicit oracle arguments.  Exceptions that escape a method
are modelled by an explicit `raised` flag carrying the state at the moment the
exception propagates.
-/

/-- A JSON value, as produced by Python's `json.loads` / consumed by
`json.dumps`.  Numbers are restricted to integers; no claim under
verification involves a non-integer numeric literal. -/
inductive JVal where
  | null : JVal
  | bool : Bool → JVal
  | num : Int → JVal
  | str : String → JVal
  | arr : List JVal → JVal
  | obj : List (String × JVal) → JVal
deriving Inhabited

/-- A Python dict with JSON values: an association list whose keys are
unique (Python dicts cannot hold duplicate keys); insertion order is the
list order, as in CPython. -/
abbrev Dict := List (String × JVal)

/-- `d.get(key)` without default: the value at the first matching key. -/
def dget? : Dict → String → Option JVal
  | [], _ => none
  | (k, v) :: rest, key => if k = key then some v else dget? rest key

/-- `d.get(key, default)`. -/
def dgetD (d : Dict) (key : String) (dflt : JVal) : JVal :=
  (dget? d key).getD dflt

/-- `transform_metrics` (rpi_gateway.py lines 150-181).  Returns `none` when
the Python code raises: `data["mesh"].get(...)` throws `AttributeError`
whenever the `mesh` field is present but is not a dict.  The source builds
`payload` imperatively in insertion order `node_name, temperature, humidity,
dht_enabled, [system], [current_wifi], mesh_status`; the appends below
reproduce that order. -/
def transform_metrics (data : Dict) : Option Dict :=
  let payload : Dict :=
    [("node_name", dgetD data "node_name" (.str "Unknown")),
     ("temperature", dgetD data "temperature" .null),
     ("humidity", dgetD data "humidity" .null),
     ("dht_enabled", dgetD data "dht_enabled" (.bool true))]
  let payload : Dict :=
    match dget? data "system" with
    | some v => payload ++ [("system", v)]
    | none => payload
  match dget? data "mesh" with
  | none =>
      -- no mesh block: data.get("mesh", {}) is the empty dict, node_count 0
      some (payload ++
        [("mesh_status", .obj
          [("enabled", .bool true), ("running", .bool true),
           ("node_id", dgetD data "node_id" (.num 0)),
           ("node_count", .num 0)])])
  | some (.obj m) =>
      some (payload ++
        [("current_wifi", .obj
          [("ssid", .str "mesh_network"),
           ("rssi", dgetD m "rssi" (.num 0)),
           ("bssid", .str ""),
           ("ip", .str ""),
           ("channel", .num 6)]),
         ("mesh_status", .obj
          [("enabled", .bool true), ("running", .bool true),
           ("node_id", dgetD data "node_id" (.num 0)),
           ("node_count", dgetD m "node_count" (.num 0))])])
  | some _ =>
      -- data["mesh"].get("rssi", 0) raises AttributeError on a non-dict
      none

/-- The mutable state of a `MeshGateway` instance that the relay engine
touches: the `node_tokens` dict (keys are `str(node_id)`) and the four
counters of `self.stats`.  `start_time`, the serial handle and the unused
`buffer` deque are outside every claim. -/
structure GState where
  node_tokens : List (String × String)
  messages_received : Nat
  messages_sent_to_backend : Nat
  commands_sent_to_mesh : Nat
  errors : Nat
deriving DecidableEq

/-- `MeshGateway.__init__`: empty token map, zeroed counters. -/
def initState : GState :=
  { node_tokens := [], messages_received := 0, messages_sent_to_backend := 0,
    commands_sent_to_mesh := 0, errors := 0 }

/-- First-match lookup in the string-valued token dict (`dict.get`). -/
def tokGet? : List (String × String) → String → Option String
  | [], _ => none
  | (k, v) :: rest, key => if k = key then some v else tokGet? rest key

/-- `token = self.node_tokens.get(str(node_id))` followed by the Python
truthiness test `if not token`: an absent key and an empty-string token are
both treated as "no token". -/
def lookupToken (tokens : List (String × String)) (key : String) : Option String :=
  match tokGet? tokens key with
  | some t => if t = "" then none else some t
  | none => none

/-- `self.node_tokens.pop(key, None)`: remove the entry for `key` (keys are
unique, so removing every match equals removing the one entry). -/
def popToken : List (String × String) → String → List (String × String)
  | [], _ => []
  | (k, v) :: rest, key =>
      if k = key then popToken rest key else (k, v) :: popToken rest key

/-- `register_node` (lines 183-189): logs and returns `None` — it never
creates a token. -/
def register_node (_node_key : String) (_data : Dict) : Option String :=
  none

/-- Outcome of one `requests.post` / `requests.get` call: an HTTP status
code, or a `requests.RequestException` raised by the transport. -/
inductive HttpResult where
  | status : Nat → HttpResult
  | exn : HttpResult
deriving DecidableEq

/-- Observables of one `send_to_backend` call beyond the state change. -/
structure SendFlags where
  /-- the Python return value -/
  ok : Bool
  /-- an exception other than RequestException escaped the method -/
  raised : Bool
  /-- an HTTP POST to the metrics endpoint was attempted -/
  posted : Bool
  /-- `register_node` was invoked -/
  registered : Bool
deriving DecidableEq

/-- Body of `send_to_backend` once a token is in hand (lines 121-148).
`transform_metrics` raising `AttributeError` is not caught by the
`except requests.RequestException` handler, so it escapes (`raised`). -/
def sendWithToken (st : GState) (node_key : String) (data : Dict)
    (resp : HttpResult) (registered : Bool) : GState × SendFlags :=
  match transform_metrics data with
  | none => (st, ⟨false, true, false, registered⟩)
  | some _payload =>
    match resp with
    | .status 200 =>
        ({ st with messages_sent_to_backend := st.messages_sent_to_backend + 1 },
         ⟨true, false, true, registered⟩)
    | .status 401 =>
        ({ st with node_tokens := popToken st.node_tokens node_key },
         ⟨false, false, true, registered⟩)
    | .status _ =>
        -- any other status: log only — the error counter is NOT incremented
        (st, ⟨false, false, true, registered⟩)
    | .exn =>
        ({ st with errors := st.errors + 1 }, ⟨false, false, true, registered⟩)

/-- `send_to_backend` (lines 110-148).  `node_key` is `str(node_id)`;
`resp` is the backend's answer to the POST, consulted only if one is made. -/
def send_to_backend (st : GState) (node_key : String) (data : Dict)
    (resp : HttpResult) : GState × SendFlags :=
  match lookupToken st.node_tokens node_key with
  | none =>
    match register_node node_key data with
    | none => (st, ⟨false, false, false, true⟩)
    | some _token => sendWithToken st node_key data resp true
  | some _token => sendWithToken st node_key data resp false

/-- Python `str()` of the scalar JSON values (used for `str(node_id)`).
Container values never occur as a `from` id in any claim; their Python
`str()` is approximated by their JSON rendering, which no theorem relies
on. -/
def pystr : JVal → String
  | .null => "None"
  | .bool true => "True"
  | .bool false => "False"
  | .num n => toString n
  | .str s => s
  | .arr _ => "[...]"
  | .obj _ => "\x7b...\x7d"

/-- `process_message` (lines 277-320).  Returns the state after the call and
whether an exception escaped.  `msg.get("type")` on a non-dict raises
`AttributeError` BEFORE the received counter is incremented.  Every message
type other than `mesh_data` only logs.  A `mesh_data` message forwards to
the backend only when its `data` field is a dict whose `msg_type` is
`"metrics"`. -/
def process_message (st : GState) (msg : JVal) (resp : HttpResult) :
    GState × Bool :=
  match msg with
  | .obj d =>
    let st1 := { st with messages_received := st.messages_received + 1 }
    match dgetD d "type" .null with
    | .str s =>
      if s = "mesh_data" then
        match dgetD d "data" (.obj []) with
        | .obj dd =>
          match dgetD dd "msg_type" .null with
          | .str t =>
            if t = "metrics" then
              let r := send_to_backend st1 (pystr (dgetD d "from" .null)) dd resp
              (r.1, r.2.raised)
            else (st1, false)
          | _ => (st1, false)
        | _ => (st1, false)
      else (st1, false)
    | _ => (st1, false)
  | _ => (st, true)

/-- Classification of one raw serial line by the decode pipeline of
`read_serial` (lines 256-267): `line.decode("utf-8")`, `.strip()`,
`json.loads`. -/
inductive DecodedLine where
  /-- the bytes are not valid UTF-8 (`UnicodeDecodeError`) -/
  | notUtf8 : DecodedLine
  /-- the stripped text is empty -/
  | empty : DecodedLine
  /-- valid UTF-8 but `json.loads` fails (`json.JSONDecodeError`) -/
  | notJson : DecodedLine
  /-- `json.loads` succeeds with value `v` -/
  | json : JVal → DecodedLine

/-- Which handler of `read_serial` terminated the iteration: the inner
`except json.JSONDecodeError` / `except UnicodeDecodeError` clauses at the
decode boundary, the outer generic `except Exception` of the reader loop, or
no handler at all. -/
inductive Handler where
  | noHandler : Handler
  | jsonErrorHandler : Handler
  | unicodeErrorHandler : Handler
  | genericHandler : Handler
deriving DecidableEq

/-- One iteration of the `read_serial` body (lines 252-275) for a received
line, already classified by the decode pipeline.  In every case the loop
then resumes with the next line. -/
def read_serial_step (st : GState) (line : DecodedLine) (resp : HttpResult) :
    GState × Handler :=
  match line with
  | .notUtf8 => (st, .unicodeErrorHandler)
  | .empty => (st, .noHandler)
  | .notJson => (st, .jsonErrorHandler)
  | .json v =>
    match process_message st v resp with
    | (st', false) => (st', .noHandler)
    | (st', true) => (st', .genericHandler)

mutual

/-- Python `json.dumps` with its default separators `", "` and `": "`
(no `indent`), restricted to the escaping our strings need: none of the
serialized strings in this program contain characters that `json.dumps`
escapes. -/
def jsonDumps : JVal → String
  | .null => "null"
  | .bool true => "true"
  | .bool false => "false"
  | .num n => toString n
  | .str s => "\"" ++ s ++ "\""
  | .arr xs => "[" ++ jsonDumpsArr xs ++ "]"
  | .obj fs => "\x7b" ++ jsonDumpsObj fs ++ "\x7d"
termination_by structural v => v

def jsonDumpsArr : List JVal → String
  | [] => ""
  | [x] => jsonDumps x
  | x :: y :: rest => jsonDumps x ++ ", " ++ jsonDumpsArr (y :: rest)
termination_by structural l => l

def jsonDumpsObj : List (String × JVal) → String
  | [] => ""
  | [(k, v)] => "\"" ++ k ++ "\": " ++ jsonDumps v
  | (k, v) :: p :: rest =>
      "\"" ++ k ++ "\": " ++ jsonDumps v ++ ", " ++ jsonDumpsObj (p :: rest)
termination_by structural l => l

end

/-- ASCII digit value of a character, if any. -/
def charDigit? (c : Char) : Option Nat :=
  if 48 ≤ c.toNat ∧ c.toNat ≤ 57 then some (c.toNat - 48) else none

/-- Accumulating base-10 parse of a digit list. -/
def natOfDigits? : List Char → Nat → Option Nat
  | [], acc => some acc
  | c :: rest, acc =>
    match charDigit? c with
    | some d => natOfDigits? rest (acc * 10 + d)
    | none => none

/-- Python `int(s)` for the strings used as node keys: an optional minus
sign followed by digits (the whitespace and underscores CPython also
tolerates are not modelled — no node key uses them).  `none` models the
`ValueError` that `int()` raises on a non-numeric key. -/
def pyInt? (s : String) : Option Int :=
  match s.data with
  | [] => none
  | '-' :: rest =>
      if rest = [] then none
      else (natOfDigits? rest 0).map (fun n => -(n : Int))
  | cs => (natOfDigits? cs 0).map (fun n => (n : Int))

/-- `send_command_to_mesh` (lines 215-238).  `serialOpen` models
`self.serial and self.serial.is_open`; `writeOk` models whether
`self.serial.write` succeeds (a failure is caught by the method's own
`except Exception`, logged, and the counter is left alone).  Returns the new
state and the list of successful serial writes (each a full line). -/
def send_command_to_mesh (st : GState) (serialOpen : Bool) (writeOk : Bool)
    (node_id : Int) (command : Dict) : GState × List String :=
  if !serialOpen then (st, [])
  else
    let mesh_cmd : JVal := .obj
      [("type", .str "send"),
       ("target", .num node_id),
       ("data", .obj
         [("cmd", dgetD command "type" .null),
          ("value", dgetD command "payload" .null),
          ("cmd_id", dgetD command "id" .null)])]
    let line := jsonDumps mesh_cmd ++ "\n"
    if writeOk then
      ({ st with commands_sent_to_mesh := st.commands_sent_to_mesh + 1 }, [line])
    else (st, [])

/-- Outcome of the pending-commands GET for one node: a status code with
the decoded body (the backend contract is a JSON array of command objects),
or a `requests.RequestException`. -/
inductive PollResult where
  | status : Nat → List Dict → PollResult
  | exn : PollResult

/-- Everything observable about one `poll_commands` call. -/
structure PollOut where
  st : GState
  /-- node keys for which a pending-commands GET was issued, in order -/
  requests : List String
  /-- `(target, command)` pairs passed to `send_command_to_mesh`, in order -/
  deliveries : List (Int × Dict)
  /-- successful serial writes, in order -/
  writes : List String
  /-- an exception escaped `poll_commands` (killing the poller thread) -/
  raised : Bool

/-- Delivery of one node's batch (the `for cmd in commands` loop, lines
209-210).  `int(node_id)` is evaluated per command; on a non-numeric key it
raises `ValueError`, which nothing in `poll_commands` catches.
`send_command_to_mesh` swallows its own failures, so a failed write never
stops the batch. -/
def deliver_batch (serialOpen : Bool) (writeOk : Int → Dict → Bool)
    (node_key : String) (st : GState) :
    List Dict → GState × List (Int × Dict) × List String × Bool
  | [] => (st, [], [], false)
  | c :: rest =>
    match pyInt? node_key with
    | none => (st, [], [], true)
    | some target =>
      let r := send_command_to_mesh st serialOpen (writeOk target c) target c
      let rec' := deliver_batch serialOpen writeOk node_key r.1 rest
      (rec'.1, (target, c) :: rec'.2.1, r.2 ++ rec'.2.2.1, rec'.2.2.2)

/-- The `for node_id, token in self.node_tokens.items()` loop of
`poll_commands` (lines 197-213).  A `RequestException` for one node is
caught by that node's `except` clause and the loop continues; a non-200
status silently skips the node; an exception out of the delivery loop
propagates and aborts the remaining nodes. -/
def poll_go (serialOpen : Bool) (writeOk : Int → Dict → Bool)
    (resp : String → PollResult) (st : GState) :
    List (String × String) → PollOut
  | [] => ⟨st, [], [], [], false⟩
  | (node_key, _token) :: rest =>
    match resp node_key with
    | .exn =>
      let out := poll_go serialOpen writeOk resp st rest
      { out with requests := node_key :: out.requests }
    | .status code body =>
      if code = 200 then
        match deliver_batch serialOpen writeOk node_key st body with
        | (st1, ds, ws, true) =>
            ⟨st1, [node_key], ds, ws, true⟩
        | (st1, ds, ws, false) =>
            let out := poll_go serialOpen writeOk resp st1 rest
            { out with requests := node_key :: out.requests,
                       deliveries := ds ++ out.deliveries,
                       writes := ws ++ out.writes }
      else
        let out := poll_go serialOpen writeOk resp st rest
        { out with requests := node_key :: out.requests }

/-- `poll_commands` (lines 194-213). -/
def poll_commands (st : GState) (serialOpen : Bool)
    (writeOk : Int → Dict → Bool) (resp : String → PollResult) : PollOut :=
  poll_go serialOpen writeOk resp st st.node_tokens

/-- One cycle of the `command_poller` thread body (lines 325-330): after the
sleep, `poll_commands` runs only when the token dict is non-empty (Python
truthiness of `self.node_tokens`). -/
def command_poller_cycle (st : GState) (serialOpen : Bool)
    (writeOk : Int → Dict → Bool) (resp : String → PollResult) : PollOut :=
  if st.node_tokens.isEmpty then ⟨st, [], [], [], false⟩
  else poll_commands st serialOpen writeOk resp

/-- An external stimulus handled by the gateway: one serial line arriving at
the reader loop (with the backend's response should a POST be made), or one
tick of the command-poller thread (with the serial status, write outcomes
and the backend's per-node poll responses). -/
inductive GEvent where
  | serialLine : DecodedLine → HttpResult → GEvent
  | pollCycle : Bool → (Int → Dict → Bool) → (String → PollResult) → GEvent

/-- The gateway as a state machine: the state reached after handling one
event.  These two handlers are the only code in the program that touches
`node_tokens` or the counters. -/
def gstep (st : GState) : GEvent → GState
  | .serialLine line resp => (read_serial_step st line resp).1
  | .pollCycle serialOpen writeOk resp =>
      (command_poller_cycle st serialOpen writeOk resp).st

/-- The deliveries a poll cycle is specified to attempt: for each node of
the token dict, the commands of its 200-response body, in order —
independent of the outcome at every other node and of the serial link.
Used to state per-node, per-command isolation. -/
def expectedDeliveries (resp : String → PollResult) :
    List (String × String) → List (Int × Dict)
  | [] => []
  | (k, _) :: rest =>
    (match resp k with
     | .status code body =>
        if code = 200 then body.map (fun c => ((pyInt? k).getD 0, c)) else []
     | .exn => []) ++ expectedDeliveries resp rest

/-- A gateway state with node 5 registered (input for C2 and C3). -/
def tokState5 : GState := { initState with node_tokens := [("5", "tok5")] }

/-- A gateway state with node 3 registered (input for C5). -/
def tokState3 : GState := { initState with node_tokens := [("3", "tok3")] }

/-- The pending command of the C5 scenario:
`json.loads` of the body element with fields type, payload, id. -/
def rebootCommand : Dict :=
  [("type", .str "reboot"), ("payload", .null), ("id", .str "c1")]

/-- The C5 scenario poll: node 3 registered, serial open, every write
succeeding, the backend answering every poll with the single reboot
command. -/
def c5Poll : PollOut :=
  poll_commands tokState3 true (fun _ _ => true)
    (fun _ => .status 200 [rebootCommand])

/-- A gateway state with nodes 1 and 2 registered (input for C8). -/
def tokState12 : GState :=
  { initState with node_tokens := [("1", "tokA"), ("2", "tokB")] }

/-- A command batch used in the C8 witness. -/
def pingCommand : Dict := [("type", .str "ping"), ("payload", .null), ("id", .str "c9")]

/-- C8 witness oracle: polling node 1 hits a network failure, node 2
returns one command. -/
def c8Resp (k : String) : PollResult :=
  if k = "1" then .exn else .status 200 [pingCommand]

/-- Mesh info block used in the C6 witness. -/
def c6Mesh : Dict := [("rssi", .num (-60)), ("node_count", .num 4)]

/-- Telemetry input with a mesh block (C6 witness). -/
def c6Data : Dict := [("node_id", .num 7), ("mesh", .obj c6Mesh)]

/-- The transformed payload of `c6Data`. -/
def c6Payload : Dict :=
  [("node_name", .str "Unknown"), ("temperature", .null),
   ("humidity", .null), ("dht_enabled", .bool true),
   ("current_wifi", .obj
     [("ssid", .str "mesh_network"), ("rssi", .num (-60)),
      ("bssid", .str ""), ("ip", .str ""), ("channel", .num 6)]),
   ("mesh_status", .obj
     [("enabled", .bool true), ("running", .bool true),
      ("node_id", .num 7), ("node_count", .num 4)])]

/-! ### Helper lemmas about the token map -/

theorem tokGet?_nil (key : String) : tokGet? [] key = none := rfl

theorem popToken_nil (key : String) : popToken [] key = [] := rfl

theorem tokGet?_popToken_none (tokens : List (String × String)) (k key : String)
    (h : tokGet? tokens key = none) :
    tokGet? (popToken tokens k) key = none := by
  induction tokens with
  | nil => rfl
  | cons p rest ih =>
    obtain ⟨pk, pv⟩ := p
    simp only [tokGet?] at h
    by_cases hp : pk = key
    · simp [hp] at h
    · simp only [hp, if_false] at h
      simp only [popToken]
      by_cases hk : pk = k
      · rw [if_pos hk]
        exact ih h
      · rw [if_neg hk]
        simp only [tokGet?, hp, if_false]
        exact ih h

theorem lookupToken_none_of_tokGet?_none (tokens : List (String × String))
    (key : String) (h : tokGet? tokens key = none) :
    lookupToken tokens key = none := by
  simp [lookupToken, h]

theorem tokGet?_popToken_self (tokens : List (String × String)) (key : String) :
    tokGet? (popToken tokens key) key = none := by
  induction tokens with
  | nil => rfl
  | cons p rest ih =>
    obtain ⟨pk, pv⟩ := p
    simp only [popToken]
    by_cases hk : pk = key
    · rw [if_pos hk]
      exact ih
    · rw [if_neg hk]
      simp only [tokGet?, hk, if_false]
      exact ih

theorem lookupToken_popToken_self (tokens : List (String × String))
    (key : String) : lookupToken (popToken tokens key) key = none :=
  lookupToken_none_of_tokGet?_none _ _ (tokGet?_popToken_self tokens key)

theorem tokGet?_popToken_other (tokens : List (String × String))
    (k key : String) (hk : k ≠ key) :
    tokGet? (popToken tokens k) key = tokGet? tokens key := by
  induction tokens with
  | nil => rfl
  | cons p rest ih =>
    obtain ⟨pk, pv⟩ := p
    simp only [popToken]
    by_cases hpk : pk = k
    · rw [if_pos hpk, ih]
      simp only [tokGet?]
      rw [if_neg (by rw [hpk]; exact hk)]
    · rw [if_neg hpk]
      simp only [tokGet?]
      by_cases hp : pk = key
      · simp [hp]
      · simp only [hp, if_false]
        exact ih

theorem lookupToken_popToken_none (tokens : List (String × String))
    (k key : String) (h : lookupToken tokens key = none) :
    lookupToken (popToken tokens k) key = none := by
  by_cases hk : k = key
  · subst hk
    exact lookupToken_popToken_self tokens k
  · rw [lookupToken, tokGet?_popToken_other tokens k key hk, ← lookupToken, h]

/-! ### How each operation acts on the token map -/

theorem send_to_backend_no_token (st : GState) (key : String) (data : Dict)
    (resp : HttpResult) (h : lookupToken st.node_tokens key = none) :
    send_to_backend st key data resp = (st, ⟨false, false, false, true⟩) := by
  unfold send_to_backend
  rw [h]
  rfl

theorem sendWithToken_tokens (st : GState) (key : String) (data : Dict)
    (resp : HttpResult) (b : Bool) :
    (sendWithToken st key data resp b).1.node_tokens = st.node_tokens ∨
    (sendWithToken st key data resp b).1.node_tokens =
      popToken st.node_tokens key := by
  unfold sendWithToken
  split
  · left; rfl
  · split
    · left; rfl
    · right; rfl
    · left; rfl
    · left; rfl

theorem send_to_backend_tokens (st : GState) (key : String) (data : Dict)
    (resp : HttpResult) :
    (send_to_backend st key data resp).1.node_tokens = st.node_tokens ∨
    (send_to_backend st key data resp).1.node_tokens =
      popToken st.node_tokens key := by
  unfold send_to_backend
  split
  · left; rfl
  · exact sendWithToken_tokens st key data resp false

theorem process_message_tokens (st : GState) (msg : JVal) (resp : HttpResult) :
    (process_message st msg resp).1.node_tokens = st.node_tokens ∨
    ∃ k, (process_message st msg resp).1.node_tokens =
      popToken st.node_tokens k := by
  cases msg with
  | obj d =>
    simp only [process_message]
    split
    · split
      · split
        · split
          · split
            · rcases send_to_backend_tokens
                { st with messages_received := st.messages_received + 1 }
                (pystr (dgetD d "from" .null)) _ resp with h | h
              · left; exact h
              · right; exact ⟨_, h⟩
            · left; rfl
          · left; rfl
        · left; rfl
      · left; rfl
    · left; rfl
  | null => left; rfl
  | bool b => left; rfl
  | num n => left; rfl
  | str s => left; rfl
  | arr xs => left; rfl

theorem read_serial_step_tokens (st : GState) (line : DecodedLine)
    (resp : HttpResult) :
    (read_serial_step st line resp).1.node_tokens = st.node_tokens ∨
    ∃ k, (read_serial_step st line resp).1.node_tokens =
      popToken st.node_tokens k := by
  cases line with
  | notUtf8 => left; rfl
  | empty => left; rfl
  | notJson => left; rfl
  | json v =>
    have h := process_message_tokens st v resp
    rcases hp : process_message st v resp with ⟨st', b⟩
    rw [hp] at h
    cases b <;> simpa [read_serial_step, hp] using h

theorem send_command_to_mesh_tokens (st : GState) (so wk : Bool) (n : Int)
    (c : Dict) :
    (send_command_to_mesh st so wk n c).1.node_tokens = st.node_tokens := by
  unfold send_command_to_mesh
  split
  · rfl
  · split
    · rfl
    · rfl

theorem deliver_batch_tokens (so : Bool) (wk : Int → Dict → Bool)
    (key : String) (body : List Dict) (st : GState) :
    (deliver_batch so wk key st body).1.node_tokens = st.node_tokens := by
  induction body generalizing st with
  | nil => rfl
  | cons c rest ih =>
    simp only [deliver_batch]
    split
    · rfl
    · rw [ih]
      exact send_command_to_mesh_tokens st so _ _ c

theorem poll_go_tokens (so : Bool) (wk : Int → Dict → Bool)
    (resp : String → PollResult) (l : List (String × String)) (st : GState) :
    (poll_go so wk resp st l).st.node_tokens = st.node_tokens := by
  induction l generalizing st with
  | nil => rfl
  | cons p rest ih =>
    obtain ⟨k, t⟩ := p
    simp only [poll_go]
    cases hr : resp k with
    | exn => simpa using ih st
    | status code body =>
      simp only
      by_cases hc : code = 200
      · rw [if_pos hc]
        have hd := deliver_batch_tokens so wk k body st
        rcases hdel : deliver_batch so wk k st body with ⟨st1, ds, ws, raised⟩
        rw [hdel] at hd
        simp only at hd
        cases raised
        · simp only [hdel]
          rw [ih st1]
          exact hd
        · simp only [hdel]
          exact hd
      · rw [if_neg hc]
        simpa using ih st

theorem command_poller_cycle_tokens (st : GState) (so : Bool)
    (wk : Int → Dict → Bool) (resp : String → PollResult) :
    (command_poller_cycle st so wk resp).st.node_tokens = st.node_tokens := by
  unfold command_poller_cycle poll_commands
  split
  · rfl
  · exact poll_go_tokens so wk resp st.node_tokens st

theorem gstep_tokens (st : GState) (ev : GEvent) :
    (gstep st ev).node_tokens = st.node_tokens ∨
    ∃ k, (gstep st ev).node_tokens = popToken st.node_tokens k := by
  cases ev with
  | serialLine line resp => exact read_serial_step_tokens st line resp
  | pollCycle so wk resp => left; exact command_poller_cycle_tokens st so wk resp

theorem gstep_tokens_empty (st : GState) (ev : GEvent)
    (h : st.node_tokens = []) : (gstep st ev).node_tokens = [] := by
  rcases gstep_tokens st ev with h1 | ⟨k, h1⟩
  · rw [h1, h]
  · rw [h1, h]
    rfl

theorem gstep_absent_preserved (st : GState) (ev : GEvent) (key : String)
    (h : lookupToken st.node_tokens key = none) :
    lookupToken (gstep st ev).node_tokens key = none := by
  rcases gstep_tokens st ev with h1 | ⟨k, h1⟩
  · rw [h1]; exact h
  · rw [h1]; exact lookupToken_popToken_none _ k key h




/-! ### Claim C1 -/

/-- C1 counterexample: on the empty telemetry dict every optional scalar is
absent, yet the transformed payload maps `temperature` to JSON null
(null-padding) and `node_name` to the default string `"Unknown"` — the
claim that absent optional fields are omitted, not null-padded and not
defaulted, is false. -/
theorem C1_counterexample :
    dget? [] "temperature" = none ∧ dget? [] "node_name" = none ∧
    (transform_metrics []).map (fun q => dget? q "temperature") =
      some (some .null) ∧
    (transform_metrics []).map (fun q => dget? q "node_name") =
      some (some (.str "Unknown")) :=
  ⟨rfl, rfl, rfl, rfl⟩

/-- C1 (amended): whenever `transform_metrics` returns a payload, each
present source field maps to its documented destination field; the optional
`system` block and the mesh-derived `current_wifi` block are omitted when
their source is absent; but an absent `temperature`/`humidity` is
null-padded and an absent `node_name`/`dht_enabled` is replaced by the
defaults `"Unknown"`/`true`. -/
theorem C1_field_mapping (data p : Dict)
    (h : transform_metrics data = some p) :
    dget? p "node_name" = some (dgetD data "node_name" (.str "Unknown")) ∧
    dget? p "temperature" = some (dgetD data "temperature" .null) ∧
    dget? p "humidity" = some (dgetD data "humidity" .null) ∧
    dget? p "dht_enabled" = some (dgetD data "dht_enabled" (.bool true)) ∧
    dget? p "system" = dget? data "system" ∧
    (dget? data "mesh" = none → dget? p "current_wifi" = none) := by
  rcases hs : dget? data "system" with _ | sv <;>
    rcases hm : dget? data "mesh" with _ | mv
  · simp only [transform_metrics, hs, hm, Option.some.injEq] at h
    subst h
    exact ⟨rfl, rfl, rfl, rfl, rfl, fun _ => rfl⟩
  · cases mv
    case obj m =>
      simp only [transform_metrics, hs, hm, Option.some.injEq] at h
      subst h
      exact ⟨rfl, rfl, rfl, rfl, rfl, fun hx => Option.noConfusion hx⟩
    all_goals simp only [transform_metrics, hs, hm] at h
    all_goals exact Option.noConfusion h
  · simp only [transform_metrics, hs, hm, Option.some.injEq] at h
    subst h
    exact ⟨rfl, rfl, rfl, rfl, rfl, fun _ => rfl⟩
  · cases mv
    case obj m =>
      simp only [transform_metrics, hs, hm, Option.some.injEq] at h
      subst h
      exact ⟨rfl, rfl, rfl, rfl, rfl, fun hx => Option.noConfusion hx⟩
    all_goals simp only [transform_metrics, hs, hm] at h
    all_goals exact Option.noConfusion h

/-- C1 witness: the amended mapping applied to a concrete input holding
only a temperature. -/
theorem C1_field_mapping_witness :
    dget? [("node_name", .str "Unknown"), ("temperature", .num 21),
           ("humidity", .null), ("dht_enabled", .bool true),
           ("mesh_status", .obj
             [("enabled", .bool true), ("running", .bool true),
              ("node_id", .num 0), ("node_count", .num 0)])] "temperature" =
      some (dgetD [("temperature", JVal.num 21)] "temperature" .null) :=
  (C1_field_mapping [("temperature", JVal.num 21)] _ rfl).2.1

/-! ### Claim C2 -/

/-- C2 counterexample: with node 5 registered, an HTTP 500 response makes
`send_to_backend` drop the message but leaves the error counter at 0 — it
is not incremented by one as the claim states (only the
`requests.RequestException` handler increments it). -/
theorem C2_counterexample :
    (send_to_backend tokState5 "5" [] (.status 500)).2.ok = false ∧
    (send_to_backend tokState5 "5" [] (.status 500)).1.errors = 0 ∧
    tokState5.errors = 0 ∧
    (send_to_backend tokState5 "5" [] (.status 500)).1.errors ≠
      tokState5.errors + 1 :=
  ⟨rfl, rfl, rfl, by decide⟩

/-- C2 (amended): a missing device token drops the message without touching
the error counter; every non-200 HTTP status (401 included) also leaves the
error counter untouched; only a transport-level failure
(`requests.RequestException`) increments it, by exactly one; delivery
succeeds exactly on status 200 (token present and transformation
succeeding). -/
theorem C2_error_accounting (st : GState) (key : String) (data : Dict)
    (resp : HttpResult) :
    ((send_to_backend st key data resp).2.ok = true ↔
      (lookupToken st.node_tokens key).isSome = true ∧
      (transform_metrics data).isSome = true ∧ resp = .status 200) ∧
    ((send_to_backend st key data resp).1.errors =
      if (lookupToken st.node_tokens key).isSome = true ∧
          (transform_metrics data).isSome = true ∧ resp = .exn
        then st.errors + 1 else st.errors) := by
  refine ⟨?_, ?_⟩ <;>
    (unfold send_to_backend sendWithToken
     rcases hl : lookupToken st.node_tokens key with _ | t <;>
       rcases ht : transform_metrics data with _ | pl <;>
         rcases resp with c | _ <;>
           (repeat' split) <;> simp_all [register_node])

/-! ### Claim C3 -/

/-- C3: after a 401 response for node `key` the cached token is removed;
the next telemetry forward for that node calls `register_node` (a fresh
registration attempt) and issues no POST with the stale token; and across
every operation of the gateway an absent token stays absent — only a
(successful) registration could reinstate one. -/
theorem C3_reauth_after_401 (st : GState) (key : String)
    (data data' : Dict) (resp' : HttpResult) (t : String)
    (htok : lookupToken st.node_tokens key = some t)
    (htr : (transform_metrics data).isSome = true) :
    lookupToken (send_to_backend st key data (.status 401)).1.node_tokens key
      = none ∧
    (send_to_backend (send_to_backend st key data (.status 401)).1 key data'
      resp').2.registered = true ∧
    (send_to_backend (send_to_backend st key data (.status 401)).1 key data'
      resp').2.posted = false ∧
    (∀ (st' : GState) (ev : GEvent) (k : String),
      lookupToken st'.node_tokens k = none →
      lookupToken (gstep st' ev).node_tokens k = none) := by
  have h401 : (send_to_backend st key data (.status 401)).1.node_tokens =
      popToken st.node_tokens key := by
    unfold send_to_backend
    rw [htok]
    unfold sendWithToken
    rcases htm : transform_metrics data with _ | pl
    · rw [htm] at htr
      simp at htr
    · rfl
  have habs : lookupToken
      (send_to_backend st key data (.status 401)).1.node_tokens key = none := by
    rw [h401]
    exact lookupToken_popToken_self _ _
  have hnext := send_to_backend_no_token
    (send_to_backend st key data (.status 401)).1 key data' resp' habs
  exact ⟨habs, by rw [hnext], by rw [hnext],
    fun st' ev k h => gstep_absent_preserved st' ev k h⟩

/-- C3 witness: node 5 registered with token `tok5`, empty telemetry dict,
401 response; the follow-up forward registers afresh and makes no POST. -/
theorem C3_reauth_after_401_witness :
    lookupToken (send_to_backend tokState5 "5" [] (.status 401)).1.node_tokens
      "5" = none ∧
    (send_to_backend (send_to_backend tokState5 "5" [] (.status 401)).1 "5" []
      (.status 200)).2.registered = true ∧
    (send_to_backend (send_to_backend tokState5 "5" [] (.status 401)).1 "5" []
      (.status 200)).2.posted = false := by
  have h := C3_reauth_after_401 tokState5 "5" [] [] (.status 200) "tok5" rfl rfl
  exact ⟨h.1, h.2.1, h.2.2.1⟩

/-! ### Claim C4 -/

/-- C4 counterexample: the line `3` is valid UTF-8 and valid JSON but not a
JSON object; `msg.get("type")` raises `AttributeError`, which is caught by
the reader loop's outer generic handler, not at the decode boundary — so
the claim that such a line is discarded at the decode boundary without
raising beyond it is false (the counter is still not incremented). -/
theorem C4_counterexample :
    read_serial_step initState (.json (.num 3)) (.status 200) =
      (initState, .genericHandler) ∧
    Handler.genericHandler ≠ Handler.jsonErrorHandler :=
  ⟨rfl, by decide⟩

/-- C4 (amended): a valid-UTF-8 line that is not valid JSON is discarded at
the decode boundary (`except json.JSONDecodeError`) with the state — the
received-message counter included — unchanged; a line that is valid JSON
but not an object raises an `AttributeError` that escapes the decode
boundary and is caught by the reader loop's generic `except Exception`
handler, also with the state unchanged; in both cases the loop resumes on
the next line. -/
theorem C4_decode_isolation (st : GState) (resp : HttpResult) (v : JVal)
    (hv : ∀ d, v ≠ JVal.obj d) :
    read_serial_step st .notJson resp = (st, .jsonErrorHandler) ∧
    read_serial_step st (.json v) resp = (st, .genericHandler) := by
  refine ⟨rfl, ?_⟩
  cases v with
  | obj d => exact absurd rfl (hv d)
  | null => rfl
  | bool b => rfl
  | num n => rfl
  | str s => rfl
  | arr xs => rfl

/-- C4 witness: the amended behaviour at the concrete non-object line `3`
and a concrete non-JSON line. -/
theorem C4_decode_isolation_witness :
    read_serial_step initState .notJson (.status 200) =
      (initState, .jsonErrorHandler) ∧
    read_serial_step initState (.json (.num 3)) (.status 200) =
      (initState, .genericHandler) :=
  C4_decode_isolation initState (.status 200) (.num 3)
    (fun _ h => JVal.noConfusion h)

/-! ### Claim C5 -/

/-- C5 counterexample: the single serial write of the scenario poll is NOT
the compact byte string of the claim — `json.dumps` uses its default
separators, which insert a space after every colon and comma. -/
theorem C5_counterexample :
    c5Poll.writes ≠
      ["\x7b\"type\":\"send\",\"target\":3,\"data\":\x7b\"cmd\":\"reboot\",\"value\":null,\"cmd_id\":\"c1\"\x7d\x7d\n"] := by
  decide

/-- C5 (amended): a pending-commands poll for registered node 3 returning
the single command with type `reboot`, null payload and id `c1` produces
exactly one serial write, terminated by a single newline, whose bytes are
the `json.dumps` rendering (default separators, i.e. a space after each
colon and comma) of the documented envelope; the commands-sent counter is
incremented once. -/
theorem C5_poll_single_write :
    c5Poll.writes =
      ["\x7b\"type\": \"send\", \"target\": 3, \"data\": \x7b\"cmd\": \"reboot\", \"value\": null, \"cmd_id\": \"c1\"\x7d\x7d\n"] ∧
    c5Poll.deliveries = [(3, rebootCommand)] ∧
    c5Poll.st.commands_sent_to_mesh = tokState3.commands_sent_to_mesh + 1 ∧
    c5Poll.raised = false :=
  ⟨rfl, rfl, rfl, rfl⟩

/-! ### Claim C6 -/

/-- C6: whenever the input carries a mesh info dict, the payload carries a
`current_wifi` block with the fixed SSID `"mesh_network"`, the mesh rssi
(default 0), empty bssid and ip, and channel 6, and a `mesh_status` block
with enabled and running always true, the input's node id (default 0) and
the mesh node count (default 0); whenever a payload is produced from an
input without a mesh block, `current_wifi` is absent and `mesh_status` is
still present with node count 0. -/
theorem C6_wifi_mesh_status (data p : Dict)
    (hp : transform_metrics data = some p) :
    (∀ m, dget? data "mesh" = some (.obj m) →
      dget? p "current_wifi" = some (.obj
        [("ssid", .str "mesh_network"), ("rssi", dgetD m "rssi" (.num 0)),
         ("bssid", .str ""), ("ip", .str ""), ("channel", .num 6)]) ∧
      dget? p "mesh_status" = some (.obj
        [("enabled", .bool true), ("running", .bool true),
         ("node_id", dgetD data "node_id" (.num 0)),
         ("node_count", dgetD m "node_count" (.num 0))])) ∧
    (dget? data "mesh" = none →
      dget? p "current_wifi" = none ∧
      dget? p "mesh_status" = some (.obj
        [("enabled", .bool true), ("running", .bool true),
         ("node_id", dgetD data "node_id" (.num 0)),
         ("node_count", .num 0)])) := by
  rcases hs : dget? data "system" with _ | sv <;>
    rcases hm : dget? data "mesh" with _ | mv
  · simp only [transform_metrics, hs, hm, Option.some.injEq] at hp
    subst hp
    exact ⟨fun m hx => Option.noConfusion hx, fun _ => ⟨rfl, rfl⟩⟩
  · cases mv
    case obj m =>
      simp only [transform_metrics, hs, hm, Option.some.injEq] at hp
      subst hp
      refine ⟨fun m' hm' => ?_, fun hx => Option.noConfusion hx⟩
      simp only [Option.some.injEq, JVal.obj.injEq] at hm'
      subst hm'
      exact ⟨rfl, rfl⟩
    all_goals simp only [transform_metrics, hs, hm] at hp
    all_goals exact Option.noConfusion hp
  · simp only [transform_metrics, hs, hm, Option.some.injEq] at hp
    subst hp
    exact ⟨fun m hx => Option.noConfusion hx, fun _ => ⟨rfl, rfl⟩⟩
  · cases mv
    case obj m =>
      simp only [transform_metrics, hs, hm, Option.some.injEq] at hp
      subst hp
      refine ⟨fun m' hm' => ?_, fun hx => Option.noConfusion hx⟩
      simp only [Option.some.injEq, JVal.obj.injEq] at hm'
      subst hm'
      exact ⟨rfl, rfl⟩
    all_goals simp only [transform_metrics, hs, hm] at hp
    all_goals exact Option.noConfusion hp

/-- C6 witness: a concrete input with node id 7, rssi -60, node count 4. -/
theorem C6_wifi_mesh_status_witness :
    dget? c6Payload "current_wifi" = some (.obj
      [("ssid", .str "mesh_network"), ("rssi", dgetD c6Mesh "rssi" (.num 0)),
       ("bssid", .str ""), ("ip", .str ""), ("channel", .num 6)]) ∧
    dget? c6Payload "mesh_status" = some (.obj
      [("enabled", .bool true), ("running", .bool true),
       ("node_id", dgetD c6Data "node_id" (.num 0)),
       ("node_count", dgetD c6Mesh "node_count" (.num 0))]) :=
  (C6_wifi_mesh_status c6Data c6Payload rfl).1 c6Mesh rfl

/-! ### Claim C7 -/

/-- C7: `register_node` returns `None` for every node and context, and a
telemetry forward for an unregistered node is dropped — returning False
with no HTTP POST issued (`posted = false`) and the state unchanged. -/
theorem C7_register_stub (st : GState) (key : String) (data : Dict)
    (resp : HttpResult) (h : lookupToken st.node_tokens key = none) :
    register_node key data = none ∧
    send_to_backend st key data resp = (st, ⟨false, false, false, true⟩) :=
  ⟨rfl, send_to_backend_no_token st key data resp h⟩

/-- C7 witness: the fresh gateway state and node 7. -/
theorem C7_register_stub_witness :
    register_node "7" [] = none ∧
    send_to_backend initState "7" [] (.status 200) =
      (initState, ⟨false, false, false, true⟩) :=
  C7_register_stub initState "7" [] (.status 200) rfl

/-! ### Claim C8 -/

theorem deliver_batch_spec (so : Bool) (wk : Int → Dict → Bool)
    (key : String) (target : Int) (h : pyInt? key = some target) :
    ∀ (body : List Dict) (st : GState),
      (deliver_batch so wk key st body).2.1 =
        body.map (fun c => (target, c)) ∧
      (deliver_batch so wk key st body).2.2.2 = false := by
  intro body
  induction body with
  | nil => intro st; exact ⟨rfl, rfl⟩
  | cons c rest ih =>
    intro st
    simp only [deliver_batch, h, List.map]
    exact ⟨by rw [(ih _).1], (ih _).2⟩

theorem poll_go_isolation (so : Bool) (wk : Int → Dict → Bool)
    (resp : String → PollResult) :
    ∀ (l : List (String × String)),
      (∀ kt ∈ l, (pyInt? kt.1).isSome = true) →
      ∀ st : GState,
        (poll_go so wk resp st l).requests = l.map Prod.fst ∧
        (poll_go so wk resp st l).deliveries = expectedDeliveries resp l := by
  intro l
  induction l with
  | nil => intro _ st; exact ⟨rfl, rfl⟩
  | cons kt rest ih =>
    obtain ⟨k, t⟩ := kt
    intro hkeys st
    have hk : (pyInt? k).isSome = true := hkeys (k, t) (List.mem_cons_self _ _)
    have hrest : ∀ kt ∈ rest, (pyInt? kt.1).isSome = true :=
      fun kt hm => hkeys kt (List.mem_cons_of_mem _ hm)
    rcases hpk : pyInt? k with _ | target
    · rw [hpk] at hk
      simp at hk
    · cases hr : resp k with
      | exn =>
        simp only [poll_go, expectedDeliveries, hr, List.map]
        refine ⟨?_, ?_⟩
        · rw [(ih hrest st).1]
        · simp only [List.nil_append]
          exact (ih hrest st).2
      | status code body =>
        by_cases hc : code = 200
        · subst hc
          have hspec := deliver_batch_spec so wk k target hpk body st
          rcases hdel : deliver_batch so wk k st body with ⟨st1, ds, ws, raised⟩
          rw [hdel] at hspec
          simp only at hspec
          obtain ⟨hds, hraised⟩ := hspec
          subst hds
          subst hraised
          simp only [poll_go, expectedDeliveries, hr, hdel, List.map, reduceIte]
          refine ⟨?_, ?_⟩
          · rw [(ih hrest st1).1]
          · rw [(ih hrest st1).2, hpk]
            simp
        · simp only [poll_go, expectedDeliveries, hr, if_neg hc, List.map]
          refine ⟨?_, ?_⟩
          · rw [(ih hrest st).1]
          · simp only [List.nil_append]
            exact (ih hrest st).2

/-- C8: within one poll cycle, every registered node is polled (its key
appears in `requests`) regardless of network failures at other nodes, and
the commands handed to `send_command_to_mesh` are exactly each node's
200-response batch in order — independent of the serial link state, of
write failures, and of every other node's outcome (per-node, per-command
isolation). -/
theorem C8_poll_isolation (st : GState) (so : Bool) (wk : Int → Dict → Bool)
    (resp : String → PollResult)
    (hkeys : ∀ kt ∈ st.node_tokens, (pyInt? kt.1).isSome = true) :
    (poll_commands st so wk resp).requests = st.node_tokens.map Prod.fst ∧
    (poll_commands st so wk resp).deliveries =
      expectedDeliveries resp st.node_tokens :=
  poll_go_isolation so wk resp st.node_tokens hkeys st

/-- C8 witness: nodes 1 and 2 registered; polling node 1 fails with a
network error, node 2 returns one command; every serial write fails — node
2's command is still delivered to the serial layer and both nodes were
polled. -/
theorem C8_poll_isolation_witness :
    (poll_commands tokState12 true (fun _ _ => false) c8Resp).requests =
      ["1", "2"] ∧
    (poll_commands tokState12 true (fun _ _ => false) c8Resp).deliveries =
      [(2, pingCommand)] := by
  have h := C8_poll_isolation tokState12 true (fun _ _ => false) c8Resp
    (by decide)
  exact ⟨h.1, h.2⟩

/-! ### Claim C9 -/

/-- C9: no operation of the gateway ever inserts into the node-token map:
starting from the empty initial state, after any sequence of events the map
is still empty, every telemetry forward is dropped without a POST (register
attempted, state unchanged), and a command-poller cycle issues no
pending-commands request at all. -/
theorem C9_tokens_empty_forever (evs : List GEvent) :
    (evs.foldl gstep initState).node_tokens = [] ∧
    (∀ (key : String) (data : Dict) (resp : HttpResult),
      send_to_backend (evs.foldl gstep initState) key data resp =
        (evs.foldl gstep initState, ⟨false, false, false, true⟩)) ∧
    (∀ (so : Bool) (wk : Int → Dict → Bool) (resp : String → PollResult),
      command_poller_cycle (evs.foldl gstep initState) so wk resp =
        ⟨evs.foldl gstep initState, [], [], [], false⟩) := by
  have hemp : ∀ (l : List GEvent) (st : GState), st.node_tokens = [] →
      (l.foldl gstep st).node_tokens = [] := by
    intro l
    induction l with
    | nil => exact fun st h => h
    | cons e rest ih => exact fun st h => ih _ (gstep_tokens_empty st e h)
  have he : (evs.foldl gstep initState).node_tokens = [] :=
    hemp evs initState rfl
  refine ⟨he, fun key data resp => ?_, fun so wk resp => ?_⟩
  · exact send_to_backend_no_token _ key data resp (by rw [he]; rfl)
  · simp [command_poller_cycle, he]

/-! ### Claim C10 -/

/-- C10: when the serial handle is absent or not open,
`send_command_to_mesh` returns at once: no serial write happens, the
commands-sent counter and all other gateway state are unchanged, and the
already-fetched command is silently discarded. -/
theorem C10_serial_closed_noop (st : GState) (wk : Bool) (node_id : Int)
    (command : Dict) :
    send_command_to_mesh st false wk node_id command = (st, []) := rfl
